import Mathlib

/-!
# Verification of the news-system orchestration core

Shallow embedding of the repository's orchestration and logging-isolation
mechanism (src/app/src/roles/{journalist,investigator,editor,news_room}.py
and src/app/src/news_rooms/basic_room/*.py), together with proofs settling
the frozen claims about it.

Modelling conventions:
* Python's `datetime.now()` is modelled by a monotonically increasing
  `Nat` clock threaded through the computation; each `now()` call reads
  the current tick.
* Python in-place mutation of an `InvestigationTask` object is modelled by
  value passing: a call that mutates the task returns the task's new state.
  The stub `investigate` implementations return the very object they were
  handed, so "the state of the task object after the call" and "the
  returned task" coincide.
* Raised exceptions are modelled with `Except PyError`; an `investigate`
  call is modelled by `InvOutcome`, which records the clock after the
  call, the state of the task object after the call, and the exception it
  raised, if any (Python mutates the task in place, so mutations survive
  a raise).
* Exact exception message texts are modelled without the quote characters
  the Python source puts around argument names.
* Log emission is modelled only where a claim mentions it (the worker
  lifecycle body); elsewhere log calls do not change any modelled state
  and are omitted.  Handler `close()` calls are omitted: they never
  change a logger's handler list or propagation flag, which is all the
  claims quantify over.
-/

/-- Errors raised by the modelled Python code. -/
inductive PyError where
  | valueError (m : String)
  | typeError (m : String)
  | other (m : String)
deriving DecidableEq, Repr

/-- `str(e)` for a modelled exception: its message. -/
def PyError.msg : PyError → String
  | .valueError m => m
  | .typeError m => m
  | .other m => m

/-- `InvestigationTask` from src/app/src/schemas/base.py.  `result` is
`Any = None` in the source; the stubs only ever store strings, so it is
modelled as `Option String`.  Timestamps are clock ticks. -/
structure InvestigationTask where
  task_id : String
  description : String
  content : String
  assigned_to : String
  status : String
  result : Option String
  created_at : Nat
  completed_at : Option Nat
deriving DecidableEq, Repr

/-- `LeadType` from src/app/src/schemas/base.py. -/
inductive LeadType where
  | file
  | question
  | email
deriving DecidableEq, Repr

/-- `Lead` from src/app/src/schemas/base.py. -/
structure Lead where
  lead_id : String
  lead_type : LeadType
  content : String
  status : String
  timestamp : Nat
deriving DecidableEq, Repr

/-- The value found under the `task` keyword argument by
`BaseInvestigator._run` (`kwargs.get("task")`): absent, present but not an
`InvestigationTask`, or an actual task.  Pydantic models are always
truthy, so the source's `not task or not isinstance(task, InvestigationTask)`
test accepts exactly the `task` constructor. -/
inductive KwTask where
  | missing
  | notATask
  | task (t : InvestigationTask)

/-- The value found under the `lead` keyword argument by
`BaseEditor._run` (`kwargs.get("lead")`). -/
inductive KwLead where
  | missing
  | notALead
  | lead (l : Lead)

/-- Outcome of one call to a concrete `investigate` implementation:
the clock after the call, the state of the (in-place mutated) task object
after the call, and the exception raised, if any. -/
structure InvOutcome where
  clock : Nat
  task : InvestigationTask
  raised : Option PyError

/-- A concrete investigator: its `name` attribute and the behaviour of
invoking `self.investigate(logger_to_use, task)` on it. -/
structure Investigator where
  name : String
  investigate : InvestigationTask → Nat → InvOutcome

/-- A log record: (level, message). -/
abbrev LogRec := String × String

/-- Modelled message of the ValueError raised by `BaseInvestigator._run`
when the `task` kwarg is missing or mistyped. -/
def taskArgErrMsg : String :=
  "task argument of type InvestigationTask must be provided in kwargs"

/-- Modelled message of the ValueError raised by `BaseEditor._run`
when the `lead` kwarg is missing or mistyped. -/
def leadArgErrMsg : String :=
  "lead argument of type Lead must be provided in kwargs"

/-- `BaseInvestigator._run` from src/app/src/roles/investigator.py.

Checks the `task` kwarg, logs a start line (one `now()` tick), calls
`self.investigate(logger_to_use, task)`, and on any exception from it
logs a warning naming the task id and the exception, forces the task's
status to "failed", and returns the task without re-raising.
Returns (result-or-raise, clock after the call, log records emitted). -/
def BaseInvestigator_run (investigate : InvestigationTask → Nat → InvOutcome)
    (kw : KwTask) (clock : Nat) :
    Except PyError InvestigationTask × Nat × List LogRec :=
  match kw with
  | .task task =>
      let startLog : LogRec :=
        ("INFO", "[Investigator] Starting task " ++ task.task_id ++ " at " ++ toString clock)
      let out := investigate task (clock + 1)
      match out.raised with
      | none =>
          (.ok out.task, out.clock,
            [startLog, ("INFO", "[Investigator] Task " ++ task.task_id ++ " succeeded")])
      | some e =>
          (.ok { out.task with status := "failed" }, out.clock,
            [startLog,
             ("WARNING", "[Investigator] Task " ++ task.task_id ++ " failed: " ++ e.msg)])
  | _ =>
      (.error (.valueError taskArgErrMsg), clock, [("ERROR", taskArgErrMsg)])

/-- An editor: its `name`, its `generate_plan` policy (lead, policy state,
clock ↦ tasks, new state, new clock) and its `get_investigator_for_task`
policy (task, state ↦ investigator, task with `assigned_to` mutated, new
state — or a raised error).  `σ` is the concrete editor's mutable
instance state (for `BasicEditor`: the round-robin counter). -/
structure Editor (σ : Type) where
  name : String
  generate_plan : Lead → σ → Nat → List InvestigationTask × σ × Nat
  get_investigator_for_task :
    InvestigationTask → σ → Except PyError (Investigator × InvestigationTask × σ)

/-- The per-task loop of `BaseEditor._run` from src/app/src/roles/editor.py:
for each task in order, obtain an investigator (which mutates
`task.assigned_to` and may raise), run it via `solve_task` /
`investigator.run(task=task)`, and append the solved task.  A raise
aborts the loop and propagates; the editor state and clock at the moment
of the raise are carried in the error branch. -/
def editorLoop {σ : Type} (ed : Editor σ) :
    List InvestigationTask → σ → Nat →
    Except PyError (List InvestigationTask) × σ × Nat
  | [], s, c => (.ok [], s, c)
  | t :: rest, s, c =>
      match ed.get_investigator_for_task t s with
      | .error e => (.error e, s, c)
      | .ok (inv, t2, s2) =>
          match BaseInvestigator_run inv.investigate (.task t2) c with
          | (.ok solved, c2, _) =>
              match editorLoop ed rest s2 c2 with
              | (.ok solvedRest, s3, c3) => (.ok (solved :: solvedRest), s3, c3)
              | (.error e, s3, c3) => (.error e, s3, c3)
          | (.error e, c2, _) => (.error e, s2, c2)

/-- `BaseEditor._run` from src/app/src/roles/editor.py: validate the
`lead` kwarg (raising ValueError on a missing or mistyped lead before any
other work), log a start line (one `now()` tick), call `generate_plan`,
then run the per-task loop. -/
def BaseEditor_run {σ : Type} (ed : Editor σ) (kw : KwLead) (s : σ) (clock : Nat) :
    Except PyError (List InvestigationTask) × σ × Nat :=
  match kw with
  | .lead l =>
      match ed.generate_plan l s (clock + 1) with
      | (tasks, s1, c1) => editorLoop ed tasks s1 c1
  | _ => (.error (.valueError leadArgErrMsg), s, clock)

/-- `BasicEditor.generate_plan` from
src/app/src/news_rooms/basic_room/basic_editor.py: two fixed tasks per
lead, ids derived from the lead id, unassigned, status "pending"; each
task's `created_at` is a fresh `now()` tick. -/
def basicGeneratePlan (lead : Lead) (clock : Nat) : List InvestigationTask :=
  [ { task_id := lead.lead_id ++ "_task_1",
      description := "First dummy task for lead: " ++ lead.content.take 50 ++ "...",
      content := lead.content,
      assigned_to := "",
      status := "pending",
      result := none,
      created_at := clock,
      completed_at := none },
    { task_id := lead.lead_id ++ "_task_2",
      description := "Second dummy task for lead: " ++ lead.content.take 50 ++ "...",
      content := lead.content,
      assigned_to := "",
      status := "pending",
      result := none,
      created_at := clock + 1,
      completed_at := none } ]

/-- `BasicEditor.get_investigator_for_task` from
src/app/src/news_rooms/basic_room/basic_editor.py: raise ValueError if
the roster is empty, else pick `investigators[idx % len(investigators)]`,
set `task.assigned_to` to its name, and advance the counter by one. -/
def basicGetInvestigator (invs : List Investigator)
    (task : InvestigationTask) (idx : Nat) :
    Except PyError (Investigator × InvestigationTask × Nat) :=
  match invs with
  | [] => .error (.valueError "No investigators available in the editor.")
  | i :: is =>
      let inv := (i :: is).get ⟨idx % (i :: is).length, Nat.mod_lt _ (Nat.succ_pos _)⟩
      .ok (inv, { task with assigned_to := inv.name }, idx + 1)

/-- A `BasicEditor` instance with the given name and roster; its policy
state is the round-robin counter `investigator_idx`, initialised to 0 by
the constructor. -/
def basicEditor (name : String) (invs : List Investigator) : Editor Nat :=
  { name := name,
    generate_plan := fun l s c => (basicGeneratePlan l c, s, c + 2),
    get_investigator_for_task := fun t s => basicGetInvestigator invs t s }

/-- `BasicInvestigatorOne` from
src/app/src/news_rooms/basic_room/basic_investigator_one.py.  Its
`investigate` is declared as `investigate(self, task)`, but
`BaseInvestigator._run` invokes `self.investigate(logger_to_use, task)`
with two arguments besides `self`; the call therefore raises `TypeError`
before the method body executes, leaving the task untouched. -/
def basicInvestigatorOne : Investigator :=
  { name := "BasicInvestigatorOne",
    investigate := fun task clock =>
      { clock := clock,
        task := task,
        raised := some (.typeError
          "BasicInvestigatorOne.investigate takes 2 positional arguments but 3 were given") } }

/-- The body of `BasicInvestigatorTwo.investigate` from
src/app/src/news_rooms/basic_room/basic_investigator_two.py (its
signature `investigate(self, logger_to_use, task)` matches the base
class's call, so the body does run): store a dummy result string, set
status "done", stamp `completed_at` with `now()`, return the task. -/
def basicInvestigatorTwoInvestigate (name : String)
    (task : InvestigationTask) (clock : Nat) : InvOutcome :=
  { clock := clock + 1,
    task := { task with
      result := some ("Alternative dummy result for task " ++ task.task_id ++ " from " ++ name),
      status := "done",
      completed_at := some clock },
    raised := none }

/-- `BasicInvestigatorTwo` with its default name. -/
def basicInvestigatorTwo : Investigator :=
  { name := "BasicInvestigatorTwo",
    investigate := basicInvestigatorTwoInvestigate "BasicInvestigatorTwo" }

/-!
## The logging model

Python's `logging.getLogger(name)` returns one shared `Logger` object per
name: two role instances with the same name alias the same logger.  The
registry of named loggers is therefore modelled as a function from names
to logger states, and the participant list of `NewsRoom.run` is a list of
logger *names* (duplicate names alias the same registry entry, exactly as
duplicate `Logger` objects alias in Python; the snapshot dicts keyed by
`Logger` object are modelled as maps keyed by name).
-/

/-- A logging handler.  Identity (what Python compares with `in` /
`remove`) is modelled by the numeric id plus the kind and file path. -/
inductive Handler where
  | nullHandler (hid : Nat)
  | fileHandler (hid : Nat) (path : String)
deriving DecidableEq, Repr

/-- The numeric identity of a handler. -/
def Handler.hid : Handler → Nat
  | .nullHandler i => i
  | .fileHandler i _ => i

/-- The mutable state of one named logger: its handler list and its
propagation flag (level is never touched by the code under study). -/
structure LoggerState where
  handlers : List Handler
  propagate : Bool
deriving DecidableEq, Repr

/-- The process-wide registry of named loggers. -/
abbrev Registry := String → LoggerState

/-- The snapshot map `original_handlers_map` (keyed by logger object,
i.e. by name). -/
abbrev HMap := String → Option (List Handler)

/-- The snapshot map `original_propagate_map`. -/
abbrev PMap := String → Option Bool

/-- `Logger.addHandler`: append the handler unless it is already present. -/
def addHandler (l : List Handler) (h : Handler) : List Handler :=
  if h ∈ l then l else l ++ [h]

/-- Re-adding a list of handlers in order, via `addHandler`. -/
def addHandlers (l : List Handler) (hs : List Handler) : List Handler :=
  hs.foldl addHandler l

/-- One pass of the redirection loop in `NewsRoom.run`
(src/app/src/roles/news_room.py): snapshot the logger's current handler
list and propagation flag into the two maps (overwriting any earlier
snapshot for the same logger, as Python dict assignment does), remove all
current handlers, attach the shared lead file handler, and disable
propagation. -/
def redirectStep (lfh : Handler) (acc : Registry × HMap × PMap) (n : String) :
    Registry × HMap × PMap :=
  let reg := acc.1
  let hm := acc.2.1
  let pm := acc.2.2
  let st := reg n
  ( fun m => if m = n then { handlers := [lfh], propagate := false } else reg m,
    fun m => if m = n then some st.handlers else hm m,
    fun m => if m = n then some st.propagate else pm m )

/-- The full redirection loop over the participant logger names. -/
def redirectAll (names : List String) (lfh : Handler) (reg : Registry) :
    Registry × HMap × PMap :=
  names.foldl (redirectStep lfh) (reg, fun _ => none, fun _ => none)

/-- One pass of the `finally` restoration loop in `NewsRoom.run`: remove
the shared lead file handler (`removeHandler` removes the first
occurrence, if present), re-add the snapshotted handlers via
`addHandler`, and restore the snapshotted propagation flag
(`dict.get(logger, default)` semantics: `[]` and `False` when absent). -/
def restoreStep (lfh : Handler) (hm : HMap) (pm : PMap)
    (reg : Registry) (n : String) : Registry :=
  let st := reg n
  let restored := addHandlers (st.handlers.erase lfh) ((hm n).getD [])
  let prop := (pm n).getD false
  fun m => if m = n then { handlers := restored, propagate := prop } else reg m

/-- The full restoration loop over the participant logger names. -/
def restoreAll (names : List String) (lfh : Handler) (hm : HMap) (pm : PMap)
    (reg : Registry) : Registry :=
  names.foldl (restoreStep lfh hm pm) reg

/-- The largest handler id reachable from the given logger names in the
registry; the freshly constructed lead file handler gets an id above it,
modelling that a newly allocated `FileHandler` object is distinct from
every handler currently attached to a participant. -/
def maxIdIn (reg : Registry) (names : List String) : Nat :=
  ((names.map (fun n => (reg n).handlers.map Handler.hid)).flatten).foldr max 0

/-- Coordinator configuration: its name and its optional log directory. -/
structure NewsRoomCfg where
  name : String
  journal_dir : Option String

/-- Result of `NewsRoom.run`: the returned (or raised) value, the
editor's policy state and the clock after the call, the logger registry
after the call, and the log file paths created during the call. -/
structure RoomResult (σ : Type) where
  result : Except PyError (List InvestigationTask)
  edState : σ
  clock : Nat
  registry : Registry
  files : List String

/-- `NewsRoom.run` from src/app/src/roles/news_room.py.

With no `journal_dir`, it logs a warning locally and delegates straight
to `self.editor.run(lead=lead)`: no logger state is saved or restored and
no file is created.  With a `journal_dir`, it creates one append-mode
file handler keyed by the lead id, redirects the loggers of every
participant (itself, the editor, all investigators) to it, runs the
editor, and in a `finally` block restores each participant's snapshotted
handlers and propagation flag before re-raising or returning. -/
def NewsRoom_run {σ : Type} (room : NewsRoomCfg) (ed : Editor σ)
    (invNames : List String) (s : σ) (lead : Lead) (clock : Nat)
    (reg : Registry) : RoomResult σ :=
  match room.journal_dir with
  | none =>
      match BaseEditor_run ed (.lead lead) s clock with
      | (res, s1, c1) =>
          { result := res, edState := s1, clock := c1, registry := reg, files := [] }
  | some dir =>
      let path := dir ++ "/" ++ lead.lead_id ++ ".log"
      let participants := room.name :: ed.name :: invNames
      let lfh := Handler.fileHandler (maxIdIn reg participants + 1) path
      match redirectAll participants lfh reg with
      | (reg1, hm, pm) =>
          match BaseEditor_run ed (.lead lead) s clock with
          | (res, s1, c1) =>
              { result := res, edState := s1, clock := c1,
                registry := restoreAll participants lfh hm pm reg1,
                files := [path] }

/-!
## Concrete inputs used by the claim theorems
-/

/-- The lead of the spec's basic scenario. -/
def scenarioLead : Lead :=
  { lead_id := "lead_001", lead_type := .question, content := "What happened?",
    status := "new", timestamp := 0 }

/-- A registry in which every named logger is in the state `BaseJournalist.__init__`
leaves it in: one NullHandler, propagation disabled. -/
def initReg : Registry :=
  fun _ => { handlers := [Handler.nullHandler 0], propagate := false }

/-- The default roster built by `BasicNewsRoom.__init__`: one
`BasicInvestigatorOne`, one `BasicInvestigatorTwo`. -/
def basicRoster : List Investigator := [basicInvestigatorOne, basicInvestigatorTwo]

/-- The names of the default roster's loggers. -/
def basicRosterNames : List String := ["BasicInvestigatorOne", "BasicInvestigatorTwo"]

/-- The full basic newsroom run of the spec scenario: `BasicNewsRoom`
(journal_dir "app/data") with `BasicEditorForNewsRoom` and the default
two-investigator roster, processing `scenarioLead` at clock 1. -/
def scenarioRun : RoomResult Nat :=
  NewsRoom_run { name := "BasicNewsRoom", journal_dir := some "app/data" }
    (basicEditor "BasicEditorForNewsRoom" basicRoster)
    basicRosterNames 0 scenarioLead 1 initReg

/-- An investigator whose every `investigate` call mutates nothing and
raises the given exception. -/
def raisingInvestigator (nm : String) (e : PyError) : Investigator :=
  { name := nm,
    investigate := fun t c => { clock := c, task := t, raised := some e } }

set_option maxRecDepth 8000 in
/-- C3: evaluating the basic stub newsroom on the scenario lead.  The
claim says task 1 is handled by the first worker and comes back "done"
with a non-null result and a `completed_at`; in fact `BaseInvestigator._run`
calls `self.investigate(logger_to_use, task)` while
`BasicInvestigatorOne.investigate` is declared `investigate(self, task)`,
so the call raises TypeError, the broad except forces status "failed",
and task 1 is returned with result `none` and `completed_at` `none`.
Task 2 (handled by `BasicInvestigatorTwo`, whose signature matches) does
come back "done" with a non-null result and `completed_at` at least the
lead's timestamp, as the claim says. -/
theorem C3_scenario_task1_fails :
    scenarioRun.result = Except.ok
      [ { task_id := "lead_001_task_1",
          description := "First dummy task for lead: What happened?...",
          content := "What happened?",
          assigned_to := "BasicInvestigatorOne",
          status := "failed",
          result := none,
          created_at := 2,
          completed_at := none },
        { task_id := "lead_001_task_2",
          description := "Second dummy task for lead: What happened?...",
          content := "What happened?",
          assigned_to := "BasicInvestigatorTwo",
          status := "done",
          result := some "Alternative dummy result for task lead_001_task_2 from BasicInvestigatorTwo",
          created_at := 3,
          completed_at := some 6 } ]
    ∧ scenarioLead.timestamp ≤ 6 := by
  constructor
  · rfl
  · decide

/-- A two-worker roster in which both investigators carry the same name
"X" — so both resolve to the same named logger — with working
(`BasicInvestigatorTwo`-style) investigate bodies. -/
def dupNameRoster : List Investigator :=
  [ { name := "X", investigate := basicInvestigatorTwoInvestigate "X" },
    { name := "X", investigate := basicInvestigatorTwoInvestigate "X" } ]

/-- The coordinator run over the duplicate-name roster: coordinator "NR",
editor "ED", two participants both named "X", journal_dir "d", starting
from `initReg`. -/
def dupNameRun : RoomResult Nat :=
  NewsRoom_run { name := "NR", journal_dir := some "d" }
    (basicEditor "ED" dupNameRoster) ["X", "X"] 0 scenarioLead 0 initReg

set_option maxRecDepth 8000 in
/-- C1: evaluating `NewsRoom.run` on a role set in which two participants
resolve to the same named logger "X".  The claim says the handler list of
every participating logger is restored exactly; in fact the snapshot
dicts are keyed by logger object and written once per *participant*, so
the second pass over the shared logger overwrites the true snapshot with
`[lead_file_handler]`, and after the (completed, exception-free) run the
shared logger is left holding the lead file handler instead of its
original NullHandler.  The planner itself returned normally. -/
theorem C1_duplicate_logger_not_restored :
    (dupNameRun.registry "X").handlers
        = [Handler.fileHandler 1 "d/lead_001.log"]
    ∧ (initReg "X").handlers = [Handler.nullHandler 0]
    ∧ (dupNameRun.registry "X") ≠ (initReg "X")
    ∧ (dupNameRun.result).isOk = true := by
  refine ⟨rfl, rfl, ?_, rfl⟩
  intro h
  have : (dupNameRun.registry "X").handlers = (initReg "X").handlers := by rw [h]
  simp only [initReg] at this
  exact absurd this (by decide)

/-- C7: both lifecycle bodies fail fast with a ValueError when their
required keyword argument is missing or mistyped — before any work on a
task or lead begins: the worker body returns with the clock untouched
(so `investigate` was never reached and no `now()` consumed) and the
planner body returns with its policy state and clock untouched (so
neither `generate_plan` nor any assignment ran). -/
theorem C7_kwarg_fail_fast {σ : Type} (ed : Editor σ)
    (f : InvestigationTask → Nat → InvOutcome) (s : σ) (c : Nat) :
    BaseInvestigator_run f KwTask.missing c
        = (.error (.valueError taskArgErrMsg), c, [("ERROR", taskArgErrMsg)])
    ∧ BaseInvestigator_run f KwTask.notATask c
        = (.error (.valueError taskArgErrMsg), c, [("ERROR", taskArgErrMsg)])
    ∧ BaseEditor_run ed KwLead.missing s c
        = (.error (.valueError leadArgErrMsg), s, c)
    ∧ BaseEditor_run ed KwLead.notALead s c
        = (.error (.valueError leadArgErrMsg), s, c) :=
  ⟨rfl, rfl, rfl, rfl⟩

/-- C8: with no log directory configured, `NewsRoom.run` delegates
directly to the planner and returns its result unchanged, leaves the
whole logger registry exactly as it was, and creates no log file. -/
theorem C8_no_journal_dir_frame {σ : Type} (roomName : String) (ed : Editor σ)
    (invNames : List String) (s : σ) (lead : Lead) (c : Nat) (reg : Registry) :
    NewsRoom_run { name := roomName, journal_dir := none } ed invNames s lead c reg
      = { result := (BaseEditor_run ed (.lead lead) s c).1,
          edState := (BaseEditor_run ed (.lead lead) s c).2.1,
          clock := (BaseEditor_run ed (.lead lead) s c).2.2,
          registry := reg,
          files := [] } := by
  rcases h : BaseEditor_run ed (.lead lead) s c with ⟨res, s1, c1⟩
  simp [NewsRoom_run, h]

/-- C9: if `investigate` raises without having mutated the task, the task
the worker returns carries status "failed" while every other field keeps
its pre-call value; in particular, when `result` and `completed_at` were
`none` before the call they are still `none`, even though "failed" is a
terminal status. -/
theorem C9_failed_task_frame (f : InvestigationTask → Nat → InvOutcome)
    (t : InvestigationTask) (c : Nat) (e : PyError)
    (hraise : (f t (c + 1)).raised = some e)
    (hframe : (f t (c + 1)).task = t) :
    ∃ r, (BaseInvestigator_run f (.task t) c).1 = Except.ok r
      ∧ r.status = "failed"
      ∧ r.task_id = t.task_id
      ∧ r.description = t.description
      ∧ r.content = t.content
      ∧ r.assigned_to = t.assigned_to
      ∧ r.result = t.result
      ∧ r.created_at = t.created_at
      ∧ r.completed_at = t.completed_at
      ∧ (t.result = none → r.result = none)
      ∧ (t.completed_at = none → r.completed_at = none) := by
  refine ⟨{ t with status := "failed" }, ?_, rfl, rfl, rfl, rfl, rfl, rfl, rfl, rfl,
    fun h => h, fun h => h⟩
  simp only [BaseInvestigator_run, hraise, hframe]

/-- A concrete pending task used to instantiate claim theorems. -/
def sampleTask : InvestigationTask :=
  { task_id := "T1", description := "sample", content := "material",
    assigned_to := "", status := "pending", result := none,
    created_at := 0, completed_at := none }

/-- An investigate behaviour that mutates nothing and raises. -/
def boomInvestigate : InvestigationTask → Nat → InvOutcome :=
  fun t c => { clock := c, task := t, raised := some (PyError.other "boom") }

/-- Witness for C9 at a concrete raising investigate and task. -/
theorem C9_failed_task_frame_witness :
    ∃ r, (BaseInvestigator_run boomInvestigate (.task sampleTask) 3).1 = Except.ok r
      ∧ r.status = "failed"
      ∧ r.task_id = sampleTask.task_id
      ∧ r.description = sampleTask.description
      ∧ r.content = sampleTask.content
      ∧ r.assigned_to = sampleTask.assigned_to
      ∧ r.result = sampleTask.result
      ∧ r.created_at = sampleTask.created_at
      ∧ r.completed_at = sampleTask.completed_at
      ∧ (sampleTask.result = none → r.result = none)
      ∧ (sampleTask.completed_at = none → r.completed_at = none) :=
  C9_failed_task_frame boomInvestigate sampleTask 3 (PyError.other "boom") rfl rfl

/-- C2: failure containment.  First conjunct (worker level): whenever
`investigate` raises, the worker's lifecycle body does not re-raise — it
returns the task with status forced to "failed" and emits a WARNING
record whose message interpolates the task id and the exception text.
Second conjunct (lead level): for a planner over the roster
[always-raising worker WA, working worker WB], every lead comes back as
`.ok [t1, t2]` — the failed task alongside the succeeded one, in order —
and the lead-level call raises nothing. -/
theorem C2_failure_containment :
    (∀ (f : InvestigationTask → Nat → InvOutcome) (t : InvestigationTask)
        (c : Nat) (e : PyError), (f t (c + 1)).raised = some e →
      BaseInvestigator_run f (.task t) c =
        (Except.ok { (f t (c + 1)).task with status := "failed" },
         (f t (c + 1)).clock,
         [("INFO", "[Investigator] Starting task " ++ t.task_id ++ " at " ++ toString c),
          ("WARNING", "[Investigator] Task " ++ t.task_id ++ " failed: " ++ e.msg)]))
    ∧ (∀ (lead : Lead) (e : PyError) (c : Nat),
        ∃ t1 t2 c1,
          BaseEditor_run
            (basicEditor "E" [raisingInvestigator "WA" e,
              { name := "WB", investigate := basicInvestigatorTwoInvestigate "WB" }])
            (.lead lead) 0 c
            = (Except.ok [t1, t2], 2, c1)
          ∧ t1.status = "failed" ∧ t1.result = none
          ∧ t2.status = "done" ∧ t2.result ≠ none) := by
  constructor
  · intro f t c e h
    simp only [BaseInvestigator_run, h]
  · intro lead e c
    refine ⟨_, _, _, rfl, rfl, rfl, rfl, ?_⟩
    simp [basicInvestigatorTwoInvestigate]

/-- Witness for C2: the raising worker at a concrete task, and the
two-worker roster on the scenario lead. -/
theorem C2_failure_containment_witness :
    (BaseInvestigator_run boomInvestigate (.task sampleTask) 3 =
      (Except.ok { (boomInvestigate sampleTask 4).task with status := "failed" },
       (boomInvestigate sampleTask 4).clock,
       [("INFO", "[Investigator] Starting task " ++ sampleTask.task_id ++ " at " ++ toString 3),
        ("WARNING", "[Investigator] Task " ++ sampleTask.task_id ++ " failed: "
          ++ (PyError.other "boom").msg)]))
    ∧ (∃ t1 t2 c1,
        BaseEditor_run
          (basicEditor "E" [raisingInvestigator "WA" (PyError.other "boom"),
            { name := "WB", investigate := basicInvestigatorTwoInvestigate "WB" }])
          (.lead scenarioLead) 0 5
          = (Except.ok [t1, t2], 2, c1)
        ∧ t1.status = "failed" ∧ t1.result = none
        ∧ t2.status = "done" ∧ t2.result ≠ none) :=
  ⟨C2_failure_containment.1 boomInvestigate sampleTask 3 (PyError.other "boom") rfl,
   C2_failure_containment.2 scenarioLead (PyError.other "boom") 5⟩

/-- Default task used only as the `List.getD` fallback in statements
about list positions that are in range. -/
def noTask : InvestigationTask :=
  { task_id := "", description := "", content := "", assigned_to := "",
    status := "", result := none, created_at := 0, completed_at := none }

/-- Default investigator used only as the `List.getD` fallback. -/
def noInvestigator : Investigator :=
  { name := "", investigate := fun t c => { clock := c, task := t, raised := none } }

/-- The worker lifecycle body on a well-formed task kwarg always returns
(never raises), and the returned task keeps the `assigned_to` and
`task_id` of the task object after the `investigate` call. -/
lemma BaseInvestigator_run_ok (inv : Investigator) (t : InvestigationTask) (c : Nat) :
    ∃ solved c2 lg,
      BaseInvestigator_run inv.investigate (.task t) c = (.ok solved, c2, lg)
      ∧ solved.assigned_to = ((inv.investigate t (c + 1)).task).assigned_to
      ∧ solved.task_id = ((inv.investigate t (c + 1)).task).task_id := by
  cases hr : (inv.investigate t (c + 1)).raised with
  | none =>
      have h : BaseInvestigator_run inv.investigate (.task t) c =
          (.ok (inv.investigate t (c + 1)).task, (inv.investigate t (c + 1)).clock,
            [("INFO", "[Investigator] Starting task " ++ t.task_id ++ " at " ++ toString c),
             ("INFO", "[Investigator] Task " ++ t.task_id ++ " succeeded")]) := by
        simp only [BaseInvestigator_run, hr]
      exact ⟨_, _, _, h, rfl, rfl⟩
  | some e =>
      have h : BaseInvestigator_run inv.investigate (.task t) c =
          (.ok { (inv.investigate t (c + 1)).task with status := "failed" },
            (inv.investigate t (c + 1)).clock,
            [("INFO", "[Investigator] Starting task " ++ t.task_id ++ " at " ++ toString c),
             ("WARNING", "[Investigator] Task " ++ t.task_id ++ " failed: " ++ e.msg)]) := by
        simp only [BaseInvestigator_run, hr]
      exact ⟨_, _, _, h, rfl, rfl⟩

/-- `BasicEditor.get_investigator_for_task` on a non-empty roster:
selects worker `idx % M`, stamps its name into the task, advances the
counter by one, and raises nothing. -/
lemma basicGetInvestigator_ok (invs : List Investigator) (hM : 0 < invs.length)
    (task : InvestigationTask) (idx : Nat) :
    basicGetInvestigator invs task idx =
      .ok (invs.getD (idx % invs.length) noInvestigator,
        { task with assigned_to := (invs.getD (idx % invs.length) noInvestigator).name },
        idx + 1) := by
  match invs with
  | [] => exact absurd hM (by simp)
  | i :: is =>
      have hlt : idx % (i :: is).length < (i :: is).length :=
        Nat.mod_lt _ (Nat.succ_pos _)
      simp only [basicGetInvestigator, List.getD_eq_getElem _ _ hlt, List.get_eq_getElem]

/-- The round-robin counter of `BasicEditor` is only ever incremented:
running the per-task loop from counter `k` over `tasks` performs one
assignment per task, ends with counter `k + tasks.length`, raises
nothing, and (provided each worker's `investigate` leaves `assigned_to`
alone, as the stubs do) the i-th returned task carries the name of
worker `(k + i) % M`. -/
lemma editorLoop_basic_spec (name : String) (invs : List Investigator)
    (hM : 0 < invs.length)
    (hpres : ∀ inv ∈ invs, ∀ t c, ((inv.investigate t c).task).assigned_to = t.assigned_to) :
    ∀ (tasks : List InvestigationTask) (k c : Nat),
      ∃ lst c1,
        editorLoop (basicEditor name invs) tasks k c = (.ok lst, k + tasks.length, c1)
        ∧ lst.length = tasks.length
        ∧ ∀ i, i < tasks.length →
            (lst.getD i noTask).assigned_to
              = (invs.getD ((k + i) % invs.length) noInvestigator).name := by
  intro tasks
  induction tasks with
  | nil => exact fun k c => ⟨[], c, by simp [editorLoop], rfl, by intro i hi; cases hi⟩
  | cons t rest ih =>
      intro k c
      have hsel := basicGetInvestigator_ok invs hM t k
      obtain ⟨solved, c2, lg, hrun, hassign, _⟩ :=
        BaseInvestigator_run_ok (invs.getD (k % invs.length) noInvestigator)
          { t with assigned_to := (invs.getD (k % invs.length) noInvestigator).name } c
      obtain ⟨lstR, c3, hloop, hlen, hpt⟩ := ih (k + 1) c2
      have hmem : invs.getD (k % invs.length) noInvestigator ∈ invs := by
        have hlt : k % invs.length < invs.length := Nat.mod_lt _ hM
        rw [List.getD_eq_getElem _ _ hlt]
        exact List.getElem_mem _
      refine ⟨solved :: lstR, c3, ?_, by simp [hlen], ?_⟩
      · have hget : (basicEditor name invs).get_investigator_for_task t k =
            .ok (invs.getD (k % invs.length) noInvestigator,
              { t with assigned_to := (invs.getD (k % invs.length) noInvestigator).name },
              k + 1) := hsel
        simp only [editorLoop, hget, hrun, hloop, List.length_cons, Prod.mk.injEq]
        exact ⟨trivial, by omega, trivial⟩
      · intro i hi
        cases i with
        | zero =>
            rw [List.getD_cons_zero]
            rw [hassign, hpres _ hmem]
            simp
        | succ j =>
            rw [List.getD_cons_succ]
            have hj : j < rest.length := by
              simpa [List.length_cons] using hi
            have := hpt j hj
            rw [this]
            have : k + 1 + j = k + (j + 1) := by omega
            rw [this]

/-- Counter-only version of the loop invariant, with no assumption on the
workers at all: the per-task loop over a non-empty roster always returns
`.ok` and always advances the round-robin counter by exactly one per
task, whatever each task's outcome. -/
lemma editorLoop_basic_counter (name : String) (invs : List Investigator)
    (hM : 0 < invs.length) :
    ∀ (tasks : List InvestigationTask) (k c : Nat),
      ∃ lst c1,
        editorLoop (basicEditor name invs) tasks k c = (.ok lst, k + tasks.length, c1)
        ∧ lst.length = tasks.length := by
  intro tasks
  induction tasks with
  | nil => exact fun k c => ⟨[], c, by simp [editorLoop], rfl⟩
  | cons t rest ih =>
      intro k c
      have hsel := basicGetInvestigator_ok invs hM t k
      obtain ⟨solved, c2, lg, hrun, _, _⟩ :=
        BaseInvestigator_run_ok (invs.getD (k % invs.length) noInvestigator)
          { t with assigned_to := (invs.getD (k % invs.length) noInvestigator).name } c
      obtain ⟨lstR, c3, hloop, hlen⟩ := ih (k + 1) c2
      refine ⟨solved :: lstR, c3, ?_, by simp [hlen]⟩
      have hget : (basicEditor name invs).get_investigator_for_task t k =
          .ok (invs.getD (k % invs.length) noInvestigator,
            { t with assigned_to := (invs.getD (k % invs.length) noInvestigator).name },
            k + 1) := hsel
      simp only [editorLoop, hget, hrun, hloop, List.length_cons, Prod.mk.injEq]
      exact ⟨trivial, by omega, trivial⟩

/-- C4: round-robin coverage.  Processing any plan of N tasks with a
fresh `BasicEditor` (round-robin counter 0, as its constructor sets it)
over a non-empty roster of M workers assigns the i-th task (0-indexed,
generation order) to worker `i % M` — its `assigned_to` carries that
worker's name in the returned list, given that the roster's workers leave
`assigned_to` alone during investigation, as the stubs do — and the
counter ends at N: it advanced by exactly one per task, regardless of
each task's outcome (the workers' investigate behaviour is arbitrary). -/
theorem C4_round_robin_assignment (name : String) (invs : List Investigator)
    (hM : 0 < invs.length)
    (hpres : ∀ inv ∈ invs, ∀ t c, ((inv.investigate t c).task).assigned_to = t.assigned_to)
    (tasks : List InvestigationTask) (c : Nat) :
    ∃ lst c1,
      editorLoop (basicEditor name invs) tasks 0 c = (.ok lst, tasks.length, c1)
      ∧ lst.length = tasks.length
      ∧ ∀ i, i < tasks.length →
          (lst.getD i noTask).assigned_to
            = (invs.getD (i % invs.length) noInvestigator).name := by
  obtain ⟨lst, c1, h1, h2, h3⟩ := editorLoop_basic_spec name invs hM hpres tasks 0 c
  exact ⟨lst, c1, by simpa using h1, h2, fun i hi => by simpa using h3 i hi⟩

/-- Workers with working stub investigate bodies, used in witnesses. -/
def wA : Investigator := { name := "WA", investigate := basicInvestigatorTwoInvestigate "WA" }

/-- Second stub worker. -/
def wB : Investigator := { name := "WB", investigate := basicInvestigatorTwoInvestigate "WB" }

/-- Third stub worker. -/
def wC : Investigator := { name := "WC", investigate := basicInvestigatorTwoInvestigate "WC" }

/-- Witness for C4: three tasks over the two-worker roster [WA, WB],
starting from the fresh counter. -/
theorem C4_round_robin_assignment_witness :
    ∃ lst c1,
      editorLoop (basicEditor "E" [wA, wB]) [sampleTask, sampleTask, sampleTask] 0 0
        = (.ok lst, 3, c1)
      ∧ lst.length = 3
      ∧ ∀ i, i < 3 →
          (lst.getD i noTask).assigned_to
            = (List.getD [wA, wB] (i % 2) noInvestigator).name :=
  C4_round_robin_assignment "E" [wA, wB] (by decide)
    (by
      intro inv hm t c
      rcases List.mem_cons.mp hm with h | hm2
      · rw [h]; rfl
      rcases List.mem_cons.mp hm2 with h | hm3
      · rw [h]; rfl
      cases hm3)
    [sampleTask, sampleTask, sampleTask] 0

/-- C10: the round-robin counter persists.  First conjunct: an editor
whose counter stands at k (after k earlier assignments, over any number
of leads) assigns the next task to worker `k % M` — not worker 0 — and
moves the counter to k+1.  Second conjunct: processing a further plan of
N tasks from counter k ends with counter k + N; nothing in the planner
ever writes the counter back to 0. -/
theorem C10_counter_never_reset (invs : List Investigator) (hM : 0 < invs.length)
    (k : Nat) (task : InvestigationTask) (name : String)
    (tasks : List InvestigationTask) (c : Nat) :
    basicGetInvestigator invs task k =
      .ok (invs.getD (k % invs.length) noInvestigator,
        { task with assigned_to := (invs.getD (k % invs.length) noInvestigator).name },
        k + 1)
    ∧ ∃ lst c1,
        editorLoop (basicEditor name invs) tasks k c = (.ok lst, k + tasks.length, c1) := by
  refine ⟨basicGetInvestigator_ok invs hM task k, ?_⟩
  obtain ⟨lst, c1, h1, _⟩ := editorLoop_basic_counter name invs hM tasks k c
  exact ⟨lst, c1, h1⟩

/-- Witness for C10: with roster [WA, WB, WC] and counter 2 (e.g. after a
first two-task lead), the next task goes to WC — not to WA — and a
further two-task plan moves the counter from 2 to 4. -/
theorem C10_counter_never_reset_witness :
    (basicGetInvestigator [wA, wB, wC] sampleTask 2 =
        .ok (wC, { sampleTask with assigned_to := "WC" }, 3)
      ∧ ∃ lst c1,
          editorLoop (basicEditor "E" [wA, wB, wC]) [sampleTask, sampleTask] 2 0
            = (.ok lst, 4, c1))
    ∧ wC.name ≠ wA.name :=
  ⟨C10_counter_never_reset [wA, wB, wC] (by decide) 2 sampleTask "E"
      [sampleTask, sampleTask] 0,
   by decide⟩

/-- Generic per-task loop invariant for any planner whose assignment
policy is total (raises nothing) and, like the repository's policies,
leaves task ids untouched in assignment and investigation: the loop
returns `.ok` with exactly one entry per input task, in input order. -/
lemma editorLoop_total_spec {σ : Type} (ed : Editor σ)
    (hTot : ∀ t s, ∃ r, ed.get_investigator_for_task t s = Except.ok r)
    (hId : ∀ t s inv t2 s2, ed.get_investigator_for_task t s = .ok (inv, t2, s2) →
        t2.task_id = t.task_id ∧ ∀ u c, ((inv.investigate u c).task).task_id = u.task_id) :
    ∀ (tasks : List InvestigationTask) (s : σ) (c : Nat),
      ∃ lst s1 c1,
        editorLoop ed tasks s c = (.ok lst, s1, c1)
        ∧ lst.length = tasks.length
        ∧ ∀ i, i < tasks.length →
            (lst.getD i noTask).task_id = (tasks.getD i noTask).task_id := by
  intro tasks
  induction tasks with
  | nil => exact fun s c => ⟨[], s, c, by simp [editorLoop], rfl, by intro i hi; cases hi⟩
  | cons t rest ih =>
      intro s c
      obtain ⟨⟨inv, t2, s2⟩, hsel⟩ := hTot t s
      obtain ⟨hid1, hid2⟩ := hId t s inv t2 s2 hsel
      obtain ⟨solved, c2, lg, hrun, _, hsid⟩ := BaseInvestigator_run_ok inv t2 c
      obtain ⟨lstR, s3, c3, hloop, hlen, hpt⟩ := ih s2 c2
      refine ⟨solved :: lstR, s3, c3, ?_, by simp [hlen], ?_⟩
      · simp only [editorLoop, hsel, hrun, hloop]
      · intro i hi
        cases i with
        | zero =>
            rw [List.getD_cons_zero, List.getD_cons_zero, hsid, hid2, hid1]
        | succ j =>
            rw [List.getD_cons_succ, List.getD_cons_succ]
            exact hpt j (by simpa using hi)

/-- C5: the planner's lifecycle body returns exactly one entry per task
produced by `generate_plan`, in generation order (same `task_id` at every
position, under the hypotheses that the assignment policy is total and
that, as in all the repository's implementations, neither assignment nor
investigation rewrites a task's id); the returned list is empty iff
`generate_plan` produced zero tasks. -/
theorem C5_one_outcome_per_task {σ : Type} (ed : Editor σ)
    (hTot : ∀ t s, ∃ r, ed.get_investigator_for_task t s = Except.ok r)
    (hId : ∀ t s inv t2 s2, ed.get_investigator_for_task t s = .ok (inv, t2, s2) →
        t2.task_id = t.task_id ∧ ∀ u c, ((inv.investigate u c).task).task_id = u.task_id)
    (l : Lead) (s : σ) (c : Nat) :
    ∃ lst s1 c1,
      BaseEditor_run ed (.lead l) s c = (.ok lst, s1, c1)
      ∧ lst.length = (ed.generate_plan l s (c + 1)).1.length
      ∧ (lst = [] ↔ (ed.generate_plan l s (c + 1)).1 = [])
      ∧ ∀ i, i < (ed.generate_plan l s (c + 1)).1.length →
          (lst.getD i noTask).task_id
            = ((ed.generate_plan l s (c + 1)).1.getD i noTask).task_id := by
  rcases hg : ed.generate_plan l s (c + 1) with ⟨tasks, s1, c1⟩
  obtain ⟨lst, s2, c2, h1, h2, h3⟩ := editorLoop_total_spec ed hTot hId tasks s1 c1
  refine ⟨lst, s2, c2, ?_, by simp [hg, h2], ?_, ?_⟩
  · simp only [BaseEditor_run, hg, h1]
  · show lst = [] ↔ tasks = []
    rw [← List.length_eq_zero, ← List.length_eq_zero, h2]
  · intro i hi
    show (lst.getD i noTask).task_id = (tasks.getD i noTask).task_id
    exact h3 i (by simpa using hi)

/-- Witness for C5: the single-worker basic editor on the scenario lead;
its stub plan has two tasks, and the returned list has exactly those two
task ids in order. -/
theorem C5_one_outcome_per_task_witness :
    ∃ lst s1 c1,
      BaseEditor_run (basicEditor "E" [wA]) (.lead scenarioLead) 0 0 = (.ok lst, s1, c1)
      ∧ lst.length = 2
      ∧ (lst = [] ↔ (basicGeneratePlan scenarioLead 1 : List InvestigationTask) = [])
      ∧ ∀ i, i < 2 →
          (lst.getD i noTask).task_id
            = ((basicGeneratePlan scenarioLead 1).getD i noTask).task_id :=
  C5_one_outcome_per_task (basicEditor "E" [wA])
    (fun t s => ⟨_, rfl⟩)
    (by
      intro t s inv t2 s2 h
      simp only [basicEditor, basicGetInvestigator, List.length_singleton, Nat.mod_one,
        List.get_cons_zero, Except.ok.injEq, Prod.mk.injEq] at h
      obtain ⟨h1, h2, _⟩ := h
      refine ⟨by rw [← h2], ?_⟩
      intro u c
      rw [← h1]
      rfl)
    scenarioLead 0 0

/-- Characterisation of the redirection loop over pairwise-distinct
participant names: every participant's logger ends redirected to the
lead file handler with propagation off, its original state correctly
snapshotted; non-participants and their snapshot entries are untouched. -/
lemma redirectAll_foldl_spec (lfh : Handler) :
    ∀ (ns : List String) (reg : Registry) (hm0 : HMap) (pm0 : PMap),
      ns.Nodup →
      (∀ n, n ∉ ns →
          (List.foldl (redirectStep lfh) (reg, hm0, pm0) ns).1 n = reg n
          ∧ (List.foldl (redirectStep lfh) (reg, hm0, pm0) ns).2.1 n = hm0 n
          ∧ (List.foldl (redirectStep lfh) (reg, hm0, pm0) ns).2.2 n = pm0 n)
      ∧ (∀ n, n ∈ ns →
          (List.foldl (redirectStep lfh) (reg, hm0, pm0) ns).1 n
              = { handlers := [lfh], propagate := false }
          ∧ (List.foldl (redirectStep lfh) (reg, hm0, pm0) ns).2.1 n
              = some (reg n).handlers
          ∧ (List.foldl (redirectStep lfh) (reg, hm0, pm0) ns).2.2 n
              = some (reg n).propagate) := by
  intro ns
  induction ns with
  | nil =>
      intro reg hm0 pm0 _
      exact ⟨fun n _ => ⟨rfl, rfl, rfl⟩, fun n hn => absurd hn (List.not_mem_nil n)⟩
  | cons a ns ih =>
      intro reg hm0 pm0 hnd
      have hna : a ∉ ns := (List.nodup_cons.mp hnd).1
      have hndt : ns.Nodup := (List.nodup_cons.mp hnd).2
      have hstep : redirectStep lfh (reg, hm0, pm0) a =
          (fun m => if m = a then { handlers := [lfh], propagate := false } else reg m,
           fun m => if m = a then some (reg a).handlers else hm0 m,
           fun m => if m = a then some (reg a).propagate else pm0 m) := rfl
      obtain ⟨ihout, ihin⟩ :=
        ih (fun m => if m = a then { handlers := [lfh], propagate := false } else reg m)
          (fun m => if m = a then some (reg a).handlers else hm0 m)
          (fun m => if m = a then some (reg a).propagate else pm0 m)
          hndt
      constructor
      · intro n hn
        have hn1 : n ≠ a := fun h => hn (h ▸ List.mem_cons_self a ns)
        have hn2 : n ∉ ns := fun h => hn (List.mem_cons_of_mem a h)
        obtain ⟨e1, e2, e3⟩ := ihout n hn2
        refine ⟨?_, ?_, ?_⟩
        · rw [List.foldl_cons, hstep, e1]; simp [hn1]
        · rw [List.foldl_cons, hstep, e2]; simp [hn1]
        · rw [List.foldl_cons, hstep, e3]; simp [hn1]
      · intro n hn
        rcases List.mem_cons.mp hn with h | hmem
        · subst h
          obtain ⟨e1, e2, e3⟩ := ihout n hna
          refine ⟨?_, ?_, ?_⟩
          · rw [List.foldl_cons, hstep, e1]; simp
          · rw [List.foldl_cons, hstep, e2]; simp
          · rw [List.foldl_cons, hstep, e3]; simp
        · have hn1 : n ≠ a := fun h => hna (h ▸ hmem)
          obtain ⟨e1, e2, e3⟩ := ihin n hmem
          refine ⟨?_, ?_, ?_⟩
          · rw [List.foldl_cons, hstep, e1]
          · rw [List.foldl_cons, hstep, e2]; simp [hn1]
          · rw [List.foldl_cons, hstep, e3]; simp [hn1]

/-- Characterisation of the restoration loop over pairwise-distinct
participant names: each participant's logger state is rewritten once from
its own snapshot entry; non-participants are untouched. -/
lemma restoreAll_foldl_spec (lfh : Handler) (hm : HMap) (pm : PMap) :
    ∀ (ns : List String) (reg : Registry),
      ns.Nodup →
      (∀ n, n ∉ ns → restoreAll ns lfh hm pm reg n = reg n)
      ∧ (∀ n, n ∈ ns → restoreAll ns lfh hm pm reg n =
          { handlers := addHandlers ((reg n).handlers.erase lfh) ((hm n).getD []),
            propagate := (pm n).getD false }) := by
  intro ns
  induction ns with
  | nil =>
      intro reg _
      exact ⟨fun n _ => rfl, fun n hn => absurd hn (List.not_mem_nil n)⟩
  | cons a ns ih =>
      intro reg hnd
      have hna : a ∉ ns := (List.nodup_cons.mp hnd).1
      have hndt : ns.Nodup := (List.nodup_cons.mp hnd).2
      have hstep : restoreStep lfh hm pm reg a =
          (fun m => if m = a then
              { handlers := addHandlers ((reg a).handlers.erase lfh) ((hm a).getD []),
                propagate := (pm a).getD false }
            else reg m) := rfl
      obtain ⟨ihout, ihin⟩ :=
        ih (fun m => if m = a then
              { handlers := addHandlers ((reg a).handlers.erase lfh) ((hm a).getD []),
                propagate := (pm a).getD false }
            else reg m) hndt
      have hunf : restoreAll (a :: ns) lfh hm pm reg =
          List.foldl (restoreStep lfh hm pm) (restoreStep lfh hm pm reg a) ns := rfl
      constructor
      · intro n hn
        have hn1 : n ≠ a := fun h => hn (h ▸ List.mem_cons_self a ns)
        have hn2 : n ∉ ns := fun h => hn (List.mem_cons_of_mem a h)
        have e1 := ihout n hn2
        rw [hunf, hstep]
        rw [show List.foldl (restoreStep lfh hm pm)
            (fun m => if m = a then
                { handlers := addHandlers ((reg a).handlers.erase lfh) ((hm a).getD []),
                  propagate := (pm a).getD false }
              else reg m) ns = restoreAll ns lfh hm pm
            (fun m => if m = a then
                { handlers := addHandlers ((reg a).handlers.erase lfh) ((hm a).getD []),
                  propagate := (pm a).getD false }
              else reg m) from rfl, e1]
        simp [hn1]
      · intro n hn
        rcases List.mem_cons.mp hn with h | hmem
        · subst h
          have e1 := ihout n hna
          rw [hunf, hstep]
          rw [show List.foldl (restoreStep lfh hm pm)
              (fun m => if m = n then
                  { handlers := addHandlers ((reg n).handlers.erase lfh) ((hm n).getD []),
                    propagate := (pm n).getD false }
                else reg m) ns = restoreAll ns lfh hm pm
              (fun m => if m = n then
                  { handlers := addHandlers ((reg n).handlers.erase lfh) ((hm n).getD []),
                    propagate := (pm n).getD false }
                else reg m) from rfl, e1]
          simp
        · have hn1 : n ≠ a := fun h => hna (h ▸ hmem)
          have e1 := ihin n hmem
          rw [hunf, hstep]
          rw [show List.foldl (restoreStep lfh hm pm)
              (fun m => if m = a then
                  { handlers := addHandlers ((reg a).handlers.erase lfh) ((hm a).getD []),
                    propagate := (pm a).getD false }
                else reg m) ns = restoreAll ns lfh hm pm
              (fun m => if m = a then
                  { handlers := addHandlers ((reg a).handlers.erase lfh) ((hm a).getD []),
                    propagate := (pm a).getD false }
                else reg m) from rfl, e1]
          simp [hn1]

/-- Re-adding a duplicate-free list of handlers, none already present,
appends it verbatim (`addHandler` only skips handlers already attached). -/
lemma addHandlers_append :
    ∀ (hs l : List Handler), hs.Nodup → (∀ x ∈ hs, x ∉ l) →
      addHandlers l hs = l ++ hs := by
  intro hs
  induction hs with
  | nil => intro l _ _; simp [addHandlers]
  | cons a t ih =>
      intro l hnd hdisj
      have hal : a ∉ l := hdisj a (List.mem_cons_self a t)
      have hat : a ∉ t := (List.nodup_cons.mp hnd).1
      have step : addHandlers l (a :: t) = addHandlers (l ++ [a]) t := by
        simp [addHandlers, addHandler, hal]
      rw [step, ih (l ++ [a]) (List.nodup_cons.mp hnd).2]
      · simp
      · intro x hx
        simp only [List.mem_append, List.mem_singleton]
        rintro (hxl | hxa)
        · exact hdisj x (List.mem_cons_of_mem a hx) hxl
        · exact hat (hxa ▸ hx)

/-- Exact restoration: over pairwise-distinct participant names whose
loggers hold duplicate-free handler lists, the `finally` loop of
`NewsRoom.run` puts the whole registry back exactly as it was before the
redirection loop ran. -/
lemma restoreAll_redirectAll_exact (ns : List String) (lfh : Handler) (reg : Registry)
    (hnd : ns.Nodup) (hh : ∀ n ∈ ns, (reg n).handlers.Nodup) :
    restoreAll ns lfh (redirectAll ns lfh reg).2.1 (redirectAll ns lfh reg).2.2
      (redirectAll ns lfh reg).1 = reg := by
  funext n
  obtain ⟨rdOut, rdIn⟩ := redirectAll_foldl_spec lfh ns reg (fun _ => none) (fun _ => none) hnd
  obtain ⟨rsOut, rsIn⟩ :=
    restoreAll_foldl_spec lfh (redirectAll ns lfh reg).2.1 (redirectAll ns lfh reg).2.2
      ns (redirectAll ns lfh reg).1 hnd
  have hun : redirectAll ns lfh reg
      = List.foldl (redirectStep lfh) (reg, fun _ => none, fun _ => none) ns := rfl
  by_cases hn : n ∈ ns
  · obtain ⟨d1, d2, d3⟩ := rdIn n hn
    rw [← hun] at d1 d2 d3
    rw [rsIn n hn, d1, d2, d3]
    have herase : ([lfh] : List Handler).erase lfh = [] := by
      simp [List.erase_cons_head]
    rw [herase]
    have hadd : addHandlers [] (reg n).handlers = [] ++ (reg n).handlers :=
      addHandlers_append (reg n).handlers [] (hh n hn) (by intro x _ hx; cases hx)
    simp only [Option.getD_some]
    rw [hadd]
    simp
  · have d1 := (rdOut n hn).1
    rw [← hun] at d1
    rw [rsOut n hn, d1]

/-- C6: processing a lead with an empty worker roster.  Assignment raises
the reported ValueError, which aborts the planner loop and propagates out
of `coordinator.run` as the call's error result — while the `finally`
restoration still completes first: the logger registry after the call is
exactly the registry before it (participants here are the coordinator's
and the editor's distinctly named loggers, with duplicate-free handler
lists, as `BaseJournalist.__init__` guarantees). -/
theorem C6_empty_roster_raises_and_restores (lead : Lead) (reg : Registry)
    (roomName edName dir : String) (s c : Nat)
    (hne : roomName ≠ edName)
    (h1 : (reg roomName).handlers.Nodup)
    (h2 : (reg edName).handlers.Nodup) :
    (NewsRoom_run { name := roomName, journal_dir := some dir }
        (basicEditor edName []) [] s lead c reg).result
      = .error (.valueError "No investigators available in the editor.")
    ∧ (NewsRoom_run { name := roomName, journal_dir := some dir }
        (basicEditor edName []) [] s lead c reg).registry = reg := by
  constructor
  · rfl
  · have hnd : ([roomName, edName] : List String).Nodup := by simp [hne]
    have hh : ∀ n ∈ ([roomName, edName] : List String), (reg n).handlers.Nodup := by
      intro n hn
      rcases List.mem_cons.mp hn with h | hn2
      · rw [h]; exact h1
      rcases List.mem_cons.mp hn2 with h | hn3
      · rw [h]; exact h2
      cases hn3
    exact restoreAll_redirectAll_exact [roomName, edName]
      (Handler.fileHandler (maxIdIn reg [roomName, edName] + 1)
        (dir ++ "/" ++ lead.lead_id ++ ".log"))
      reg hnd hh

/-- Witness for C6: the empty-roster coordinator on the scenario lead,
with concrete distinct names and the default initial registry. -/
theorem C6_empty_roster_witness :
    (NewsRoom_run { name := "NR", journal_dir := some "d" }
        (basicEditor "ED" []) [] 0 scenarioLead 0 initReg).result
      = .error (.valueError "No investigators available in the editor.")
    ∧ (NewsRoom_run { name := "NR", journal_dir := some "d" }
        (basicEditor "ED" []) [] 0 scenarioLead 0 initReg).registry = initReg :=
  C6_empty_roster_raises_and_restores scenarioLead initReg "NR" "ED" "d" 0 0
    (by decide) (by decide) (by decide)
